import Mathlib

/-!
Verification of the transfer engine of the internal-transfers-api service.

The Go source is embedded shallowly:

* Monetary values (`decimal.Decimal` in Go, `NUMERIC(38,10)` in the schema)
  are modelled as `Int` at a fixed power-of-ten scale.  This is exact: the
  code only ever adds, subtracts and order-compares monetary values, and the
  decimals of a fixed scale form a subgroup of the rationals under exactly
  those operations.  No rounding or multiplication occurs anywhere.
* UUIDs are modelled as abstract identifiers (`Nat`); the code only ever
  compares them for equality.
* Timestamps (`NOW()`) are modelled as a logical clock (`Nat`) carried in the
  database state.  Inside one SQL transaction `NOW()` is constant (as in
  PostgreSQL); the clock advances when a transaction commits.
* A database transaction (`BeginTx` .. `Commit` with `defer Rollback`) is
  modelled by threading a draft state: every early-`return` path yields the
  original state (rollback), and only `Commit` installs the draft.
-/

abbrev Money := Int
abbrev AccountID := Nat
abbrev Timestamp := Nat

/-- Row of the accounts table (migrations/001_create_schema.sql). -/
structure AccountRow where
  balance : Money
  createdAt : Timestamp
  updatedAt : Timestamp
deriving DecidableEq, Repr

/-- model.TransactionStatus. -/
inductive TransactionStatus where
  | pending
  | completed
  | failed
deriving DecidableEq, Repr

/-- model.Transaction, one row of the transactions table. -/
structure Transaction where
  id : Nat
  sourceAccountID : Option AccountID
  destinationAccountID : AccountID
  amount : Money
  reference : Option String
  status : TransactionStatus
  createdAt : Timestamp
  completedAt : Option Timestamp
deriving DecidableEq, Repr

/-- repository.IdempotencyRecord, one row of the idempotency_keys table. -/
structure IdempotencyRecord where
  keyHash : String
  requestBody : String
  responseBody : Option String
  responseStatus : Option Nat
  createdAt : Timestamp
  expiresAt : Timestamp
deriving DecidableEq, Repr

/-- The persistent state owned by the backing store. -/
structure DBState where
  accounts : List (AccountID × AccountRow)
  transactions : List Transaction
  idempotencyKeys : List IdempotencyRecord
  nextTxId : Nat
  now : Timestamp
deriving DecidableEq, Repr

/-- model.CreateTransactionRequest. -/
structure CreateTransactionRequest where
  sourceAccountID : Option AccountID
  destinationAccountID : AccountID
  amount : Money
  reference : Option String
deriving DecidableEq, Repr

/-- model.CreateTransactionResponse. -/
structure CreateTransactionResponse where
  id : Nat
  sourceAccountID : Option AccountID
  destinationAccountID : AccountID
  amount : Money
  reference : Option String
  status : TransactionStatus
  createdAt : Timestamp
deriving DecidableEq, Repr

/-- model.ValidationError. -/
structure ValidationError where
  field : String
  message : String
deriving DecidableEq, Repr

/-- Error codes of internal/model (part_001 of the model package). -/
def errCodeValidation : String := "VALIDATION_ERROR"

def errCodeNotFound : String := "NOT_FOUND"

def errCodeInternalError : String := "INTERNAL_ERROR"

def errCodeInsufficientFunds : String := "INSUFFICIENT_FUNDS"

def errCodeInvalidInput : String := "INVALID_INPUT"

def errCodeConflict : String := "CONFLICT"

/-- service.ServiceError carries a machine readable code and a message. -/
structure ServiceError where
  code : String
  message : String
deriving DecidableEq, Repr

/-- A Go error value returned by the service layer: either a typed
service.ServiceError or a plain error (errors.New or fmt.Errorf), which the
HTTP layer cannot inspect. -/
inductive AppError where
  | service (e : ServiceError)
  | other (message : String)
deriving DecidableEq, Repr

/-- Errors produced by the repository layer.  checkViolation models the
database rejecting a write that violates a schema CHECK constraint. -/
inductive RepoError where
  | accountNotFound
  | transactionNotFound
  | checkViolation (constraintName : String)
deriving DecidableEq, Repr

/-- Looking up an account row by primary key (the first match; the primary
key makes the match unique in any state reachable through the store). -/
def lookupAccount : List (AccountID × AccountRow) → AccountID → Option AccountRow
  | [], _ => none
  | (k, row) :: rest, id => if k = id then some row else lookupAccount rest id

/-- The UPDATE of AccountRepository.UpdateBalance applied to the matched
row: balance := newBalance, updated_at := NOW(). -/
def setBalance : List (AccountID × AccountRow) → AccountID → Money → Timestamp →
    List (AccountID × AccountRow)
  | [], _, _, _ => []
  | (k, row) :: rest, id, newBalance, t =>
    if k = id then (k, { row with balance := newBalance, updatedAt := t }) :: rest
    else (k, row) :: setBalance rest id newBalance t

/-- AccountRepository.GetBalanceForUpdate (part_002): SELECT balance FROM
accounts WHERE id = $1 FOR UPDATE; no row yields ErrAccountNotFound. -/
def getBalanceForUpdate (accounts : List (AccountID × AccountRow)) (id : AccountID) :
    Except RepoError Money :=
  match lookupAccount accounts id with
  | some row => .ok row.balance
  | none => .error .accountNotFound

/-- AccountRepository.UpdateBalance (part_002): UPDATE accounts SET
balance = $1, updated_at = NOW() WHERE id = $2.  When a row matches, the
schema constraint positive_balance CHECK (balance >= 0)
(migrations/001_create_schema.sql) makes the statement fail for a negative
new balance; when no row matches, rowsAffected = 0 yields
ErrAccountNotFound. -/
def updateBalance (accounts : List (AccountID × AccountRow)) (id : AccountID)
    (newBalance : Money) (t : Timestamp) :
    Except RepoError (List (AccountID × AccountRow)) :=
  match lookupAccount accounts id with
  | none => .error .accountNotFound
  | some _ =>
    if newBalance < 0 then .error (.checkViolation "positive_balance")
    else .ok (setBalance accounts id newBalance t)

/-- AccountRepository.GetBalanceAt (part_002): SELECT balance FROM accounts
WHERE id = $1 AND updated_at <= $2; only the current row is consulted, so a
timestamp before the last update matches no row and yields
ErrAccountNotFound. -/
def getBalanceAt (accounts : List (AccountID × AccountRow)) (id : AccountID)
    (timestamp : Timestamp) : Except RepoError Money :=
  match lookupAccount accounts id with
  | some row => if row.updatedAt ≤ timestamp then .ok row.balance else .error .accountNotFound
  | none => .error .accountNotFound

/-- AccountRepository.Exists (part_002). -/
def accountExists (accounts : List (AccountID × AccountRow)) (id : AccountID) : Bool :=
  (lookupAccount accounts id).isSome

/-- TransactionRepository.UpdateStatus (part_001): UPDATE transactions SET
status = $1, completed_at = NOW() when the new status is completed or
failed, WHERE id = $3; rowsAffected = 0 yields ErrTransactionNotFound. -/
def updateStatus (transactions : List Transaction) (id : Nat)
    (status : TransactionStatus) (t : Timestamp) :
    Except RepoError (List Transaction) :=
  if transactions.any (fun tx => tx.id = id) then
    .ok (transactions.map (fun tx =>
      if tx.id = id then
        { tx with
          status := status,
          completedAt :=
            if status = .completed ∨ status = .failed then some t else tx.completedAt }
      else tx))
  else .error .transactionNotFound

/-- IdempotencyRepository.GetRequest (part_003): SELECT .. FROM
idempotency_keys WHERE key_hash = $1 AND expires_at > NOW(); no row is a
valid absent result. -/
def getRequest (records : List IdempotencyRecord) (keyHash : String) (t : Timestamp) :
    Option IdempotencyRecord :=
  records.find? (fun r => r.keyHash = keyHash && t < r.expiresAt)

/-- CreateTransactionRequest.Validate (internal/model/transaction.go).
String length: Go len counts UTF-8 bytes, matched by String.utf8ByteSize. -/
def CreateTransactionRequest.validate (r : CreateTransactionRequest) :
    Option ValidationError :=
  if r.amount = 0 ∨ r.amount < 0 then
    some { field := "amount", message := "amount must be positive" }
  else if r.sourceAccountID = some r.destinationAccountID then
    some { field := "destination_account_id",
           message := "source and destination accounts cannot be the same" }
  else
    match r.reference with
    | some ref =>
      if ref.utf8ByteSize > 255 then
        some { field := "reference", message := "reference cannot exceed 255 characters" }
      else none
    | none => none

/-- How a repository error travels up when the service returns it without
translating it (Go: return nil, err): the HTTP layer receives a plain error
it cannot inspect. -/
def RepoError.toAppError : RepoError → AppError
  | .accountNotFound => .other "account not found"
  | .transactionNotFound => .other "transaction not found"
  | .checkViolation c => .other ("failed to update account balance: " ++ c)

/-- TransactionService.CreateTransaction, the part after the source-account
check (internal/service/transaction.go lines 82 to 145): lock destination,
insert the pending transfer row, debit the source, credit the destination,
mark completed, commit.  The draft state is installed only on commit; every
error path returns the caller-visible state unchanged (defer tx.Rollback).
commitOk models whether the Commit call itself succeeds. -/
def createTransactionBody (commitOk : Bool) (st : DBState)
    (req : CreateTransactionRequest) :
    Except AppError CreateTransactionResponse × DBState :=
  let t := st.now
  match getBalanceForUpdate st.accounts req.destinationAccountID with
  | .error .accountNotFound =>
    (.error (.service { code := errCodeNotFound, message := "Destination account not found" }), st)
  | .error e => (.error e.toAppError, st)
  | .ok _ =>
    let txRow : Transaction :=
      { id := st.nextTxId
        sourceAccountID := req.sourceAccountID
        destinationAccountID := req.destinationAccountID
        amount := req.amount
        reference := req.reference
        status := .pending
        createdAt := t
        completedAt := none }
    let transactions1 := st.transactions ++ [txRow]
    let debited : Except RepoError (List (AccountID × AccountRow)) :=
      match req.sourceAccountID with
      | some s =>
        match getBalanceForUpdate st.accounts s with
        | .error e => .error e
        | .ok sourceBalance => updateBalance st.accounts s (sourceBalance - req.amount) t
      | none => .ok st.accounts
    match debited with
    | .error e => (.error e.toAppError, st)
    | .ok accounts1 =>
      match getBalanceForUpdate accounts1 req.destinationAccountID with
      | .error e => (.error e.toAppError, st)
      | .ok destBalance =>
        match updateBalance accounts1 req.destinationAccountID (destBalance + req.amount) t with
        | .error e => (.error e.toAppError, st)
        | .ok accounts2 =>
          match updateStatus transactions1 st.nextTxId .completed t with
          | .error e => (.error e.toAppError, st)
          | .ok transactions2 =>
            if commitOk then
              (.ok
                { id := txRow.id
                  sourceAccountID := txRow.sourceAccountID
                  destinationAccountID := txRow.destinationAccountID
                  amount := txRow.amount
                  reference := txRow.reference
                  status := .completed
                  createdAt := txRow.createdAt },
               { st with
                 accounts := accounts2
                 transactions := transactions2
                 nextTxId := st.nextTxId + 1
                 now := st.now + 1 })
            else (.error (.other "failed to commit transaction"), st)

/-- TransactionService.CreateTransaction (internal/service/transaction.go):
validation, then the source-account lock, existence and sufficient-funds
checks, then the body above. -/
def createTransaction (commitOk : Bool) (st : DBState)
    (req : CreateTransactionRequest) :
    Except AppError CreateTransactionResponse × DBState :=
  match req.validate with
  | some ve => (.error (.service { code := errCodeValidation, message := ve.message }), st)
  | none =>
    match req.sourceAccountID with
    | some s =>
      match getBalanceForUpdate st.accounts s with
      | .error .accountNotFound =>
        (.error (.service { code := errCodeNotFound, message := "Source account not found" }), st)
      | .error e => (.error e.toAppError, st)
      | .ok sourceBalance =>
        if sourceBalance < req.amount then
          (.error (.service { code := errCodeInsufficientFunds,
                              message := "Insufficient funds in source account" }), st)
        else createTransactionBody commitOk st req
    | none => createTransactionBody commitOk st req

/-- model.BulkTransferRequest. -/
structure BulkTransferRequest where
  transfers : List CreateTransactionRequest
deriving DecidableEq, Repr

/-- model.TransferError, one entry of the failed list of a bulk response. -/
structure TransferError where
  index : Nat
  error : String
  code : String
deriving DecidableEq, Repr

/-- model.BulkTransferResponse. -/
structure BulkTransferResponse where
  transfers : List CreateTransactionResponse
  failed : List TransferError
deriving DecidableEq, Repr

/-- The element loop of BulkTransferRequest.Validate: the first invalid
element aborts validation of the whole batch.  The Go code builds the field
name with string(rune(i)), the UTF-8 encoding of code point i. -/
def firstElementError : Nat → List CreateTransactionRequest → Option ValidationError
  | _, [] => none
  | i, t :: rest =>
    match t.validate with
    | some ve =>
      some { field := "transfers[" ++ String.mk [Char.ofNat i] ++ "]." ++ ve.field
             message := ve.message }
    | none => firstElementError (i + 1) rest

/-- BulkTransferRequest.Validate (internal/model/transaction.go lines 139 to
167): size bounds, then every element is validated up front. -/
def BulkTransferRequest.validate (r : BulkTransferRequest) : Option ValidationError :=
  if r.transfers.length = 0 then
    some { field := "transfers", message := "at least one transfer is required" }
  else if r.transfers.length > 100 then
    some { field := "transfers", message := "cannot process more than 100 transfers at once" }
  else firstElementError 0 r.transfers

/-- The message Go reports for an error value (err.Error()). -/
def AppError.goMessage : AppError → String
  | .service e => e.message
  | .other m => m

/-- The code attached to a failed bulk element: the ServiceError code when
the error is one, ErrCodeInternalError otherwise. -/
def AppError.bulkCode : AppError → String
  | .service e => e.code
  | .other _ => errCodeInternalError

/-- The element loop of TransactionService.ProcessBulkTransfers: each element
runs through its own CreateTransaction call (its own database transaction,
committing or rolling back independently), successes and failures are
collected positionally, and processing always continues with the next
element.  commits says whether the commit of element i succeeds. -/
def processBulkLoop (commits : Nat → Bool) :
    DBState → Nat → List CreateTransactionRequest → BulkTransferResponse →
    BulkTransferResponse × DBState
  | st, _, [], acc => (acc, st)
  | st, i, t :: rest, acc =>
    match createTransaction (commits i) st t with
    | (.error e, st1) =>
      processBulkLoop commits st1 (i + 1) rest
        { acc with
          failed := acc.failed ++ [{ index := i, error := e.goMessage, code := e.bulkCode }] }
    | (.ok resp, st1) =>
      processBulkLoop commits st1 (i + 1) rest
        { acc with transfers := acc.transfers ++ [resp] }

/-- TransactionService.ProcessBulkTransfers (internal/service/transaction.go
lines 149 to 180): batch-level validation first; on any validation error the
raw ValidationError is returned and no element executes. -/
def processBulkTransfers (commits : Nat → Bool) (st : DBState)
    (req : BulkTransferRequest) :
    Except ValidationError BulkTransferResponse × DBState :=
  match req.validate with
  | some ve => (.error ve, st)
  | none =>
    let r := processBulkLoop commits st 0 req.transfers { transfers := [], failed := [] }
    (.ok r.1, r.2)

/-- TransactionRepository.GetAccountTransactions (part_001): SELECT rows
WHERE source_account_id = $1 OR destination_account_id = $1 ORDER BY
created_at DESC LIMIT $2 OFFSET $3.  The transactions list of the model is
kept in insertion order with strictly increasing created_at stamps, so
reversing it realizes ORDER BY created_at DESC. -/
def repoGetAccountTransactions (st : DBState) (accountID : AccountID)
    (limit offset : Int) : List Transaction :=
  (((st.transactions.filter (fun tx =>
      tx.sourceAccountID = some accountID || tx.destinationAccountID = accountID)).reverse).drop
    offset.toNat).take limit.toNat

/-- TransactionService.GetAccountTransactions (internal/service/transaction.go
lines 199 to 221): existence check, then the limit is reset to 20 whenever it
is nonpositive or above 100, a negative offset is reset to 0, and the
repository query runs with the adjusted values. -/
def getAccountTransactions (st : DBState) (accountID : AccountID)
    (limit offset : Int) : Except AppError (List Transaction) :=
  if accountExists st.accounts accountID = false then
    .error (.service { code := errCodeNotFound, message := "Account not found" })
  else
    let limit1 := if limit ≤ 0 ∨ limit > 100 then 20 else limit
    let offset1 := if offset < 0 then 0 else offset
    .ok (repoGetAccountTransactions st accountID limit1 offset1)

/-- AccountService.GetAccountBalance (internal/service/account.go lines 83 to
112): with a timestamp, the historical lookup; a repository
ErrAccountNotFound becomes the NOT_FOUND service error with message Account
not found. -/
def getAccountBalance (st : DBState) (id : AccountID) (atTime : Option Timestamp) :
    Except AppError Money :=
  match atTime with
  | some t =>
    match getBalanceAt st.accounts id t with
    | .error .accountNotFound =>
      .error (.service { code := errCodeNotFound, message := "Account not found" })
    | .error e => .error e.toAppError
    | .ok b => .ok b
  | none =>
    match lookupAccount st.accounts id with
    | none => .error (.service { code := errCodeNotFound, message := "Account not found" })
    | some row => .ok row.balance

/-- handler.handleServiceError (part_004 lines 136 to 155): the switch over
the ServiceError code; a plain error falls to the generic branch.  The
result is (HTTP status, message, code) of the rendered error response. -/
def handleServiceError (err : AppError) : Nat × String × String :=
  match err with
  | .service e =>
    if e.code = errCodeNotFound then (404, e.message, e.code)
    else if e.code = errCodeValidation ∨ e.code = errCodeInvalidInput then
      (400, e.message, e.code)
    else if e.code = errCodeInsufficientFunds then (422, e.message, e.code)
    else if e.code = errCodeConflict then (409, e.message, e.code)
    else (500, "Internal server error", errCodeInternalError)
  | .other _ => (500, "Internal server error", errCodeInternalError)

/-- handler.parseQueryParams (part_004 lines 158 to 175).  A query value is
modelled after strconv.Atoi as the parsed integer; an absent parameter is
none.  Out-of-range values are rejected, not clamped. -/
def parseQueryParams (limitParam offsetParam : Option Int) :
    Except String (Int × Int) :=
  match limitParam with
  | some l =>
    if l ≤ 0 ∨ l > 100 then .error "invalid limit parameter"
    else
      match offsetParam with
      | some o => if o < 0 then .error "invalid offset parameter" else .ok (l, o)
      | none => .ok (l, 0)
  | none =>
    match offsetParam with
    | some o => if o < 0 then .error "invalid offset parameter" else .ok (20, o)
    | none => .ok (20, 0)

/-- What the HTTP layer renders for one single-transfer request. -/
inductive HandlerOutcome where
  | success (status : Nat) (resp : CreateTransactionResponse)
  | failure (status : Nat) (message : String) (code : String)
deriving DecidableEq, Repr

/-- TransactionHandler.CreateTransaction followed by handleSingleTransfer
(part_003 lines 154 to 225) for a request that decodes as a single
transfer: the Idempotency-Key header is read and then discarded
(the Go line is: underscore = idempotencyKey, with the comment TODO
Implement idempotency logic), so the idempotency store is never consulted
and never written, and the service call always runs. -/
def handlerCreateSingleTransaction (idempotencyKey : Option String)
    (commitOk : Bool) (st : DBState) (req : CreateTransactionRequest) :
    HandlerOutcome × DBState :=
  let _ := idempotencyKey
  match createTransaction commitOk st req with
  | (.ok resp, st1) => (.success 201 resp, st1)
  | (.error e, st1) =>
    let r := handleServiceError e
    (.failure r.1 r.2.1 r.2.2, st1)

/-- Sum of all stored account balances. -/
def sumBalances (accounts : List (AccountID × AccountRow)) : Money :=
  (accounts.map (fun p => p.2.balance)).sum

/-- The stored balance of an account, defaulting to 0 for an absent row. -/
def balanceOf (st : DBState) (id : AccountID) : Money :=
  match lookupAccount st.accounts id with
  | some row => row.balance
  | none => 0

/-- Decidable equality of results, used to evaluate the model on concrete
inputs. -/
instance {ε α : Type} [DecidableEq ε] [DecidableEq α] : DecidableEq (Except ε α) :=
  fun x y =>
    match x, y with
    | .error a, .error b =>
      if h : a = b then .isTrue (by rw [h]) else .isFalse (by simp [h])
    | .ok a, .ok b =>
      if h : a = b then .isTrue (by rw [h]) else .isFalse (by simp [h])
    | .error _, .ok _ => .isFalse (by simp)
    | .ok _, .error _ => .isFalse (by simp)

/-! Concrete inputs used to evaluate the model (scenario states). -/

/-- Scenario of claim C1: two funded accounts, a transfer between them. -/
def stC1 : DBState :=
  { accounts := [(1, ⟨100000, 0, 0⟩), (2, ⟨50050, 0, 0⟩)]
    transactions := []
    idempotencyKeys := []
    nextTxId := 0
    now := 10 }

def reqC1 : CreateTransactionRequest := ⟨some 1, 2, 15025, none⟩

def respC1 : CreateTransactionResponse := ⟨0, some 1, 2, 15025, none, .completed, 10⟩

/-- The state after running reqC1 against stC1. -/
def stC1' : DBState :=
  { accounts := [(1, ⟨84975, 0, 10⟩), (2, ⟨65075, 0, 10⟩)]
    transactions := [⟨0, some 1, 2, 15025, none, .completed, 10, some 10⟩]
    idempotencyKeys := []
    nextTxId := 1
    now := 11 }

/-- Scenario of claim C3: the source holds 500, the request asks for 1000. -/
def stC3 : DBState :=
  { accounts := [(1, ⟨500, 0, 0⟩), (2, ⟨0, 0, 0⟩)]
    transactions := []
    idempotencyKeys := []
    nextTxId := 0
    now := 3 }

def reqC3 : CreateTransactionRequest := ⟨some 1, 2, 1000, none⟩

/-- Scenario of claim C6: a zero amount. -/
def reqC6 : CreateTransactionRequest := ⟨some 1, 2, 0, none⟩

/-- Scenario of claim C10: the account row was last updated at time 9. -/
def stC10 : DBState :=
  { accounts := [(4, ⟨2500, 1, 9⟩)]
    transactions := []
    idempotencyKeys := []
    nextTxId := 0
    now := 12 }

/-- Scenario of claim C8: account 1 participates in 30 committed transfers. -/
def stC8 : DBState :=
  { accounts := [(1, ⟨0, 0, 35⟩)]
    transactions := (List.range 30).map
      (fun i => ⟨i, none, 1, 100, none, .completed, i, some i⟩)
    idempotencyKeys := []
    nextTxId := 30
    now := 35 }

/-- Scenario of claim C4: a well-funded transfer whose commit fails. -/
def stC4 : DBState :=
  { accounts := [(1, ⟨10000, 0, 0⟩), (2, ⟨5000, 0, 0⟩)]
    transactions := []
    idempotencyKeys := []
    nextTxId := 0
    now := 2 }

def reqC4 : CreateTransactionRequest := ⟨some 1, 2, 1000, none⟩

/-- Scenario of claim C2 as stated: the second element has a zero amount. -/
def stC2 : DBState :=
  { accounts := [(1, ⟨10000, 0, 0⟩), (2, ⟨0, 0, 0⟩)]
    transactions := []
    idempotencyKeys := []
    nextTxId := 0
    now := 1 }

def bulkReqC2 : BulkTransferRequest :=
  ⟨[⟨some 1, 2, 1000, none⟩, ⟨some 1, 2, 0, none⟩, ⟨some 1, 2, 500, none⟩]⟩

/-- Scenario of the amended claim C2: the second element passes validation
but fails at run time with insufficient funds. -/
def stC2b : DBState :=
  { accounts := [(1, ⟨1000, 0, 0⟩), (2, ⟨0, 0, 0⟩)]
    transactions := []
    idempotencyKeys := []
    nextTxId := 0
    now := 1 }

def bulkReqC2b : BulkTransferRequest :=
  ⟨[⟨some 1, 2, 500, none⟩, ⟨some 1, 2, 10000, none⟩, ⟨some 1, 2, 500, none⟩]⟩

/-- The bulk response produced by bulkReqC2b against stC2b. -/
def respC9 : BulkTransferResponse :=
  { transfers :=
      [⟨0, some 1, 2, 500, none, .completed, 1⟩,
       ⟨1, some 1, 2, 500, none, .completed, 2⟩]
    failed := [⟨1, "Insufficient funds in source account", "INSUFFICIENT_FUNDS"⟩] }

/-- The state after running bulkReqC2b against stC2b. -/
def stC9' : DBState :=
  { accounts := [(1, ⟨0, 0, 2⟩), (2, ⟨1000, 0, 2⟩)]
    transactions :=
      [⟨0, some 1, 2, 500, none, .completed, 1, some 1⟩,
       ⟨1, some 1, 2, 500, none, .completed, 2, some 2⟩]
    idempotencyKeys := []
    nextTxId := 2
    now := 3 }

/-- Scenario of claim C5: a stored, completed, unexpired idempotency record. -/
def recC5 : IdempotencyRecord :=
  { keyHash := "idem-key-1"
    requestBody := "raw-body"
    responseBody := some "stored-response"
    responseStatus := some 201
    createdAt := 0
    expiresAt := 1000 }

def stC5 : DBState :=
  { accounts := [(7, ⟨10000, 0, 0⟩)]
    transactions := []
    idempotencyKeys := [recC5]
    nextTxId := 0
    now := 5 }

def reqC5 : CreateTransactionRequest := ⟨none, 7, 2500, none⟩
theorem sumBalances_cons (p : AccountID × AccountRow) (rest : List (AccountID × AccountRow)) :
    sumBalances (p :: rest) = p.2.balance + sumBalances rest := by
  simp [sumBalances]

theorem lookupAccount_mem {l : List (AccountID × AccountRow)} {id : AccountID}
    {row : AccountRow} (h : lookupAccount l id = some row) : (id, row) ∈ l := by
  induction l with
  | nil => simp [lookupAccount] at h
  | cons p rest ih =>
    obtain ⟨k, r⟩ := p
    by_cases hk : k = id
    · subst hk
      simp [lookupAccount] at h
      subst h
      exact List.mem_cons_self _ _
    · simp only [lookupAccount, if_neg hk] at h
      exact List.mem_cons_of_mem _ (ih h)

theorem lookupAccount_setBalance_self {l : List (AccountID × AccountRow)} {id : AccountID}
    {row : AccountRow} (b : Money) (t : Timestamp) (h : lookupAccount l id = some row) :
    lookupAccount (setBalance l id b t) id = some { row with balance := b, updatedAt := t } := by
  induction l with
  | nil => simp [lookupAccount] at h
  | cons p rest ih =>
    obtain ⟨k, r⟩ := p
    by_cases hk : k = id
    · subst hk
      simp [lookupAccount] at h
      subst h
      simp [setBalance, lookupAccount]
    · simp only [lookupAccount, if_neg hk] at h
      simp only [setBalance, if_neg hk, lookupAccount]
      exact ih h

theorem lookupAccount_setBalance_ne {l : List (AccountID × AccountRow)} {id k : AccountID}
    (b : Money) (t : Timestamp) (hk : k ≠ id) :
    lookupAccount (setBalance l id b t) k = lookupAccount l k := by
  induction l with
  | nil => simp [setBalance]
  | cons p rest ih =>
    obtain ⟨k0, r⟩ := p
    by_cases h0 : k0 = id
    · subst h0
      simp only [setBalance, if_pos rfl, lookupAccount]
      rw [if_neg (fun h => hk h.symm), if_neg (fun h => hk h.symm)]
    · simp only [setBalance, if_neg h0, lookupAccount]
      by_cases h1 : k0 = k
      · simp [h1]
      · rw [if_neg h1, if_neg h1]
        exact ih

theorem sumBalances_setBalance {l : List (AccountID × AccountRow)} {id : AccountID}
    {row : AccountRow} (b : Money) (t : Timestamp) (h : lookupAccount l id = some row) :
    sumBalances (setBalance l id b t) = sumBalances l - row.balance + b := by
  induction l with
  | nil => simp [lookupAccount] at h
  | cons p rest ih =>
    obtain ⟨k, r⟩ := p
    by_cases hk : k = id
    · subst hk
      simp [lookupAccount] at h
      subst h
      simp [setBalance, sumBalances_cons]
      ring
    · simp only [lookupAccount, if_neg hk] at h
      simp only [setBalance, if_neg hk]
      rw [sumBalances_cons, sumBalances_cons, ih h]
      ring

theorem setBalance_nonneg {l : List (AccountID × AccountRow)} {id : AccountID}
    {b : Money} (t : Timestamp) (h : ∀ p ∈ l, 0 ≤ p.2.balance) (hb : 0 ≤ b) :
    ∀ p ∈ setBalance l id b t, 0 ≤ p.2.balance := by
  induction l with
  | nil => simp [setBalance]
  | cons q rest ih =>
    obtain ⟨k, r⟩ := q
    by_cases hk : k = id
    · subst hk
      simp only [setBalance, if_pos rfl]
      intro p hp
      rcases List.mem_cons.mp hp with h1 | h1
      · subst h1; exact hb
      · exact h p (List.mem_cons_of_mem _ h1)
    · simp only [setBalance, if_neg hk]
      intro p hp
      rcases List.mem_cons.mp hp with h1 | h1
      · subst h1; exact h _ (List.mem_cons_self _ _)
      · exact ih (fun q hq => h q (List.mem_cons_of_mem _ hq)) p h1

theorem validate_none_amount_pos {req : CreateTransactionRequest}
    (h : req.validate = none) : 0 < req.amount := by
  unfold CreateTransactionRequest.validate at h
  by_cases h0 : req.amount = 0 ∨ req.amount < 0
  · rw [if_pos h0] at h; exact absurd h (by simp)
  · push_neg at h0
    obtain ⟨h1, h2⟩ := h0
    exact lt_of_le_of_ne h2 (Ne.symm h1)

theorem validate_none_src_ne_dest {req : CreateTransactionRequest}
    (h : req.validate = none) : req.sourceAccountID ≠ some req.destinationAccountID := by
  unfold CreateTransactionRequest.validate at h
  intro hc
  rw [hc] at h
  by_cases h0 : req.amount = 0 ∨ req.amount < 0
  · rw [if_pos h0] at h; exact absurd h (by simp)
  · rw [if_neg h0, if_pos rfl] at h
    exact absurd h (by simp)

theorem getBalanceForUpdate_ok_inv {accounts : List (AccountID × AccountRow)}
    {id : AccountID} {b : Money} (h : getBalanceForUpdate accounts id = .ok b) :
    ∃ row, lookupAccount accounts id = some row ∧ b = row.balance := by
  unfold getBalanceForUpdate at h
  split at h
  case _ row hrow => exact ⟨row, hrow, by simpa using h.symm⟩
  case _ => simp at h

theorem createTransaction_ok_src_inv
    {c : Bool} {st st' : DBState} {req : CreateTransactionRequest}
    {resp : CreateTransactionResponse} {s : AccountID}
    (hok : createTransaction c st req = (.ok resp, st'))
    (hsrc : req.sourceAccountID = some s) :
    ∃ srcRow destRow,
      req.validate = none ∧
      lookupAccount st.accounts s = some srcRow ∧
      lookupAccount st.accounts req.destinationAccountID = some destRow ∧
      ¬ srcRow.balance < req.amount ∧
      st'.accounts =
        setBalance (setBalance st.accounts s (srcRow.balance - req.amount) st.now)
          req.destinationAccountID (destRow.balance + req.amount) st.now := by
  unfold createTransaction at hok
  split at hok
  · simp at hok
  case _ hval =>
  simp only [hsrc] at hok
  split at hok
  · simp at hok
  · simp at hok
  case _ sourceBalance heq1 =>
  obtain ⟨srcRow, hlooks, hbal⟩ := getBalanceForUpdate_ok_inv heq1
  subst hbal
  have hsd : s ≠ req.destinationAccountID := by
    intro h
    apply validate_none_src_ne_dest hval
    rw [hsrc, h]
  split at hok
  · simp at hok
  case _ hlt =>
  unfold createTransactionBody at hok
  split at hok
  · simp at hok
  · simp at hok
  case _ destBalance heq2 =>
  obtain ⟨destRow, hlookd, hbald⟩ := getBalanceForUpdate_ok_inv heq2
  subst hbald
  simp only [hsrc, heq1] at hok
  split at hok
  · simp at hok
  case _ accounts1 hdeb =>
  unfold updateBalance at hdeb
  simp only [hlooks] at hdeb
  split at hdeb
  · simp at hdeb
  case _ =>
  have hacc1 : setBalance st.accounts s (srcRow.balance - req.amount) st.now = accounts1 := by
    simpa using hdeb
  subst hacc1
  have hread2 : getBalanceForUpdate
      (setBalance st.accounts s (srcRow.balance - req.amount) st.now)
      req.destinationAccountID = .ok destRow.balance := by
    unfold getBalanceForUpdate
    rw [lookupAccount_setBalance_ne _ _ (Ne.symm hsd), hlookd]
  simp only [hread2] at hok
  split at hok
  · simp at hok
  case _ accounts2 hcred =>
  unfold updateBalance at hcred
  simp only [lookupAccount_setBalance_ne _ _ (Ne.symm hsd), hlookd] at hcred
  split at hcred
  · simp at hcred
  case _ =>
  have hacc2 : setBalance (setBalance st.accounts s (srcRow.balance - req.amount) st.now)
      req.destinationAccountID (destRow.balance + req.amount) st.now = accounts2 := by
    simpa using hcred
  subst hacc2
  split at hok
  · simp at hok
  case _ transactions2 heq3 =>
  split at hok
  case _ =>
    refine ⟨srcRow, destRow, hval, hlooks, hlookd, hlt, ?_⟩
    obtain ⟨-, hst⟩ := Prod.mk.injEq .. |>.mp hok
    rw [← hst]
  case _ => simp at hok

/-- C1: every successful CreateTransfer with a source account present debits
the source by exactly the transfer amount and credits the destination by the
same amount, so the sum of all stored balances is unchanged, and (from a
state with all balances nonnegative) every balance stays nonnegative
afterwards. -/
theorem claim_C1_transfer_conservation
    (c : Bool) (st st' : DBState) (req : CreateTransactionRequest)
    (resp : CreateTransactionResponse) (s : AccountID)
    (hok : createTransaction c st req = (.ok resp, st'))
    (hsrc : req.sourceAccountID = some s)
    (hnonneg : ∀ p ∈ st.accounts, 0 ≤ p.2.balance) :
    balanceOf st' s = balanceOf st s - req.amount ∧
    balanceOf st' req.destinationAccountID =
      balanceOf st req.destinationAccountID + req.amount ∧
    sumBalances st'.accounts = sumBalances st.accounts ∧
    ∀ p ∈ st'.accounts, 0 ≤ p.2.balance := by
  obtain ⟨srcRow, destRow, hval, hlooks, hlookd, hlt, hacc⟩ :=
    createTransaction_ok_src_inv hok hsrc
  have hsd : s ≠ req.destinationAccountID := by
    intro h
    exact validate_none_src_ne_dest hval (by rw [hsrc, h])
  have hamt := validate_none_amount_pos hval
  have hlook1d : lookupAccount
      (setBalance st.accounts s (srcRow.balance - req.amount) st.now)
      req.destinationAccountID = some destRow := by
    rw [lookupAccount_setBalance_ne _ _ (Ne.symm hsd), hlookd]
  refine ⟨?_, ?_, ?_, ?_⟩
  · simp only [balanceOf, hacc, lookupAccount_setBalance_ne _ _ hsd,
      lookupAccount_setBalance_self _ _ hlooks, hlooks]
  · simp only [balanceOf, hacc, lookupAccount_setBalance_self _ _ hlook1d, hlookd]
  · rw [hacc, sumBalances_setBalance _ _ hlook1d, sumBalances_setBalance _ _ hlooks]
    ring
  · rw [hacc]
    have hdnn : 0 ≤ destRow.balance := hnonneg _ (lookupAccount_mem hlookd)
    have hsnn : 0 ≤ srcRow.balance - req.amount := sub_nonneg.mpr (not_lt.mp hlt)
    exact setBalance_nonneg _ (setBalance_nonneg _ hnonneg hsnn)
      (add_nonneg hdnn (le_of_lt hamt))

/-- Witness for C1 at a concrete transfer of 150.25 between two funded
accounts. -/
theorem claim_C1_witness :
    balanceOf stC1' 1 = balanceOf stC1 1 - reqC1.amount ∧
    balanceOf stC1' reqC1.destinationAccountID =
      balanceOf stC1 reqC1.destinationAccountID + reqC1.amount ∧
    sumBalances stC1'.accounts = sumBalances stC1.accounts ∧
    ∀ p ∈ stC1'.accounts, 0 ≤ p.2.balance :=
  claim_C1_transfer_conservation true stC1 stC1' reqC1 respC1 1
    (by decide) (by decide) (by decide)

/-- C3: a CreateTransfer whose source account exists but holds strictly
less than the requested amount returns the INSUFFICIENT_FUNDS service error
and leaves the entire state unchanged, so no balance changes and no transfer
row becomes visible. -/
theorem claim_C3_insufficient_funds_no_mutation
    (c : Bool) (st : DBState) (req : CreateTransactionRequest)
    (s : AccountID) (row : AccountRow)
    (hval : req.validate = none)
    (hsrc : req.sourceAccountID = some s)
    (hlook : lookupAccount st.accounts s = some row)
    (hlt : row.balance < req.amount) :
    createTransaction c st req =
      (.error (.service { code := errCodeInsufficientFunds,
                          message := "Insufficient funds in source account" }), st) := by
  have h1 : getBalanceForUpdate st.accounts s = .ok row.balance := by
    unfold getBalanceForUpdate
    rw [hlook]
  unfold createTransaction
  simp only [hval, hsrc, h1, if_pos hlt]

/-- Witness for C3: an account holding 5.00 asked to transfer 10.00. -/
theorem claim_C3_witness :
    createTransaction true stC3 reqC3 =
      (.error (.service { code := errCodeInsufficientFunds,
                          message := "Insufficient funds in source account" }), stC3) :=
  claim_C3_insufficient_funds_no_mutation true stC3 reqC3 1 ⟨500, 0, 0⟩
    (by decide) (by decide) (by decide) (by decide)

theorem validate_some_run {req : CreateTransactionRequest} {ve : ValidationError}
    (hve : req.validate = some ve) (c : Bool) (st : DBState) :
    createTransaction c st req =
      (.error (.service { code := errCodeValidation, message := ve.message }), st) := by
  unfold createTransaction
  simp only [hve]

/-- C6: a request with a nonpositive amount, or source equal to
destination, or an overlong reference is rejected by validation with a
ValidationError naming the offending field; the service returns the
VALIDATION_ERROR code with that message for every state, which shows the
check involves no storage access, and the state is unchanged. -/
theorem claim_C6_validation_fails_fast
    (req : CreateTransactionRequest)
    (hbad : req.amount ≤ 0 ∨ req.sourceAccountID = some req.destinationAccountID ∨
      (∃ r, req.reference = some r ∧ r.utf8ByteSize > 255)) :
    ∃ ve : ValidationError,
      req.validate = some ve ∧
      ((ve.field = "amount" ∧ req.amount ≤ 0) ∨
       (ve.field = "destination_account_id" ∧
         req.sourceAccountID = some req.destinationAccountID) ∨
       (ve.field = "reference" ∧ ∃ r, req.reference = some r ∧ r.utf8ByteSize > 255)) ∧
      ∀ (c : Bool) (st : DBState),
        createTransaction c st req =
          (.error (.service { code := errCodeValidation, message := ve.message }), st) := by
  by_cases h0 : req.amount = 0 ∨ req.amount < 0
  · have hve : req.validate = some { field := "amount", message := "amount must be positive" } := by
      unfold CreateTransactionRequest.validate
      rw [if_pos h0]
    have hle : req.amount ≤ 0 := by
      rcases h0 with h | h
      · exact le_of_eq h
      · exact le_of_lt h
    exact ⟨_, hve, Or.inl ⟨rfl, hle⟩, validate_some_run hve⟩
  · by_cases h1 : req.sourceAccountID = some req.destinationAccountID
    · have hve : req.validate = some
          { field := "destination_account_id",
            message := "source and destination accounts cannot be the same" } := by
        unfold CreateTransactionRequest.validate
        rw [if_neg h0, if_pos h1]
      exact ⟨_, hve, Or.inr (Or.inl ⟨rfl, h1⟩), validate_some_run hve⟩
    · obtain ⟨r, hr, hlen⟩ : ∃ r, req.reference = some r ∧ r.utf8ByteSize > 255 := by
        rcases hbad with h | h | h
        · rcases lt_or_eq_of_le h with hlt | heq
          · exact absurd (Or.inr hlt) h0
          · exact absurd (Or.inl heq) h0
        · exact absurd h h1
        · exact h
      have hve : req.validate = some
          { field := "reference", message := "reference cannot exceed 255 characters" } := by
        unfold CreateTransactionRequest.validate
        rw [if_neg h0, if_neg h1]
        simp only [hr]
        rw [if_pos hlen]
      exact ⟨_, hve, Or.inr (Or.inr ⟨rfl, r, hr, hlen⟩), validate_some_run hve⟩

/-- Witness for C6 at a zero-amount request. -/
theorem claim_C6_witness :
    ∃ ve : ValidationError,
      reqC6.validate = some ve ∧
      ((ve.field = "amount" ∧ reqC6.amount ≤ 0) ∨
       (ve.field = "destination_account_id" ∧
         reqC6.sourceAccountID = some reqC6.destinationAccountID) ∨
       (ve.field = "reference" ∧ ∃ r, reqC6.reference = some r ∧ r.utf8ByteSize > 255)) ∧
      ∀ (c : Bool) (st : DBState),
        createTransaction c st reqC6 =
          (.error (.service { code := errCodeValidation, message := ve.message }), st) :=
  claim_C6_validation_fails_fast reqC6 (by decide)

/-- C7: the account store write path rejects any balance below zero (the
positive_balance schema constraint fires on the UPDATE issued by
UpdateBalance), so updateBalance can never make a stored balance
negative. -/
theorem claim_C7_update_balance_guards_nonnegativity
    (accounts : List (AccountID × AccountRow)) (id : AccountID)
    (newBalance : Money) (t : Timestamp) :
    ((lookupAccount accounts id).isSome = true → newBalance < 0 →
      updateBalance accounts id newBalance t =
        .error (.checkViolation "positive_balance")) ∧
    (∀ accounts2, updateBalance accounts id newBalance t = .ok accounts2 →
      (∀ p ∈ accounts, 0 ≤ p.2.balance) → ∀ p ∈ accounts2, 0 ≤ p.2.balance) := by
  constructor
  · intro hsome hneg
    unfold updateBalance
    cases hl : lookupAccount accounts id with
    | none => rw [hl] at hsome; simp at hsome
    | some row =>
      simp only []
      rw [if_pos hneg]
  · intro accounts2 hok hnn
    unfold updateBalance at hok
    cases hl : lookupAccount accounts id with
    | none =>
      simp only [hl] at hok
      exact absurd hok (by simp)
    | some row =>
      simp only [hl] at hok
      split at hok
      · simp at hok
      case _ hge =>
        have hset : setBalance accounts id newBalance t = accounts2 := by
          simpa using hok
        subst hset
        exact setBalance_nonneg _ hnn (not_lt.mp hge)

/-- Witness for C7 at a concrete negative write. -/
theorem claim_C7_witness :
    updateBalance [(1, ⟨500, 0, 0⟩)] 1 (-300) 7 =
      .error (.checkViolation "positive_balance") :=
  (claim_C7_update_balance_guards_nonnegativity [(1, ⟨500, 0, 0⟩)] 1 (-300) 7).1
    (by decide) (by decide)

/-- C10: for an account that exists, a historical balance query with a
timestamp strictly before the row updated_at stamp returns the NOT_FOUND
service error with message Account not found, not a balance. -/
theorem claim_C10_historical_query_before_update_is_not_found
    (st : DBState) (id : AccountID) (row : AccountRow) (t : Timestamp)
    (hlook : lookupAccount st.accounts id = some row)
    (ht : t < row.updatedAt) :
    getAccountBalance st id (some t) =
      .error (.service { code := errCodeNotFound, message := "Account not found" }) := by
  have h1 : getBalanceAt st.accounts id t = .error .accountNotFound := by
    unfold getBalanceAt
    simp only [hlook]
    rw [if_neg (not_le.mpr ht)]
  unfold getAccountBalance
  simp only [h1]

/-- Witness for C10: account updated at time 9, queried at time 5. -/
theorem claim_C10_witness :
    getAccountBalance stC10 4 (some 5) =
      .error (.service { code := errCodeNotFound, message := "Account not found" }) :=
  claim_C10_historical_query_before_update_is_not_found stC10 4 ⟨2500, 1, 9⟩ 5
    (by decide) (by decide)

theorem getAccountTransactions_exists_run
    {st : DBState} {accountID : AccountID}
    (hex : accountExists st.accounts accountID = true) (limit offset : Int) :
    getAccountTransactions st accountID limit offset =
      .ok (repoGetAccountTransactions st accountID
        (if limit ≤ 0 ∨ limit > 100 then 20 else limit)
        (if offset < 0 then 0 else offset)) := by
  unfold getAccountTransactions
  rw [hex]
  simp

/-- C8 (amended): on an existing account, the limit defaults to 20 when
unspecified; an out-of-range limit is replaced by the default 20 (a limit
above 100 behaves exactly like limit 20, it is not clamped to 100), a
negative offset is replaced by 0, and every returned page holds at most 100
rows; the HTTP layer parseQueryParams defaults an absent limit to 20. -/
theorem claim_C8_amended_limit_resets_to_default
    (st : DBState) (accountID : AccountID) (limit offset : Int)
    (hex : accountExists st.accounts accountID = true) :
    (100 < limit → getAccountTransactions st accountID limit offset =
      getAccountTransactions st accountID 20 offset) ∧
    (offset < 0 → getAccountTransactions st accountID limit offset =
      getAccountTransactions st accountID limit 0) ∧
    (∀ rows, getAccountTransactions st accountID limit offset = .ok rows →
      rows.length ≤ 100) ∧
    parseQueryParams none none = .ok (20, 0) := by
  refine ⟨?_, ?_, ?_, rfl⟩
  · intro h
    rw [getAccountTransactions_exists_run hex, getAccountTransactions_exists_run hex,
      if_pos (Or.inr h), if_neg (show ¬((20 : Int) ≤ 0 ∨ (20 : Int) > 100) by decide)]
  · intro h
    rw [getAccountTransactions_exists_run hex, getAccountTransactions_exists_run hex,
      if_pos h, if_neg (show ¬((0 : Int) < 0) by decide)]
  · intro rows hrows
    rw [getAccountTransactions_exists_run hex] at hrows
    have hr : rows = repoGetAccountTransactions st accountID
        (if limit ≤ 0 ∨ limit > 100 then 20 else limit)
        (if offset < 0 then 0 else offset) := by
      simpa using hrows.symm
    subst hr
    unfold repoGetAccountTransactions
    refine le_trans (List.length_take_le _ _) ?_
    by_cases hc : limit ≤ 0 ∨ limit > 100
    · rw [if_pos hc]; decide
    · rw [if_neg hc]
      push_neg at hc
      omega

/-- C8 counterexample: with 30 matching transfers, a requested limit of
150 returns 20 rows, the default page, while a limit of 100 returns all 30,
so a limit above 100 is not clamped into (1,100]; moreover the HTTP layer
rejects limit 150 outright. -/
theorem claim_C8_counterexample :
    (getAccountTransactions stC8 1 150 0).map List.length = .ok 20 ∧
    (getAccountTransactions stC8 1 100 0).map List.length = .ok 30 ∧
    parseQueryParams (some 150) none = .error "invalid limit parameter" := by
  decide

theorem createTransactionBody_no_commit (st : DBState)
    (req : CreateTransactionRequest) (r : Except AppError CreateTransactionResponse)
    (st2 : DBState) (h : createTransactionBody false st req = (r, st2)) :
    st2 = st ∧ ∀ resp, r ≠ .ok resp := by
  unfold createTransactionBody at h
  dsimp only at h
  repeat' split at h
  all_goals
    first
      | (obtain ⟨h1, h2⟩ := Prod.mk.injEq .. |>.mp h
         subst h2
         subst h1
         exact ⟨rfl, by simp⟩)
      | simp_all

theorem createTransaction_no_commit (st : DBState)
    (req : CreateTransactionRequest) (r : Except AppError CreateTransactionResponse)
    (st2 : DBState) (h : createTransaction false st req = (r, st2)) :
    st2 = st ∧ ∀ resp, r ≠ .ok resp := by
  unfold createTransaction at h
  repeat' split at h
  all_goals
    first
      | exact createTransactionBody_no_commit _ _ _ _ h
      | (obtain ⟨h1, h2⟩ := Prod.mk.injEq .. |>.mp h
         subst h2
         subst h1
         exact ⟨rfl, by simp⟩)

/-- C4 (amended): when the atomic unit fails at commit, no partial write
survives (the caller-visible state is exactly the initial state and no
success is ever reported), and the caller observes the generic internal
failure (HTTP 500, code INTERNAL_ERROR), because the commit error is a plain
wrapped error that the HTTP error mapper cannot distinguish; there is no
distinct retryable TransactionAborted kind. -/
theorem claim_C4_amended_commit_failure_is_generic_internal
    (st : DBState) (req : CreateTransactionRequest) :
    (createTransaction false st req).2 = st ∧
    (∀ resp st', createTransaction false st req ≠ (.ok resp, st')) ∧
    handleServiceError (.other "failed to commit transaction") =
      (500, "Internal server error", errCodeInternalError) := by
  refine ⟨?_, ?_, rfl⟩
  · exact (createTransaction_no_commit st req _ _ rfl).1
  · intro resp st' hc
    exact (createTransaction_no_commit st req _ _ hc).2 resp rfl

/-- C4 counterexample: a concrete well-funded transfer whose commit fails
surfaces as the plain commit error, which handleServiceError renders as the
generic 500 INTERNAL_ERROR response, not as a distinct retryable error
kind. -/
theorem claim_C4_counterexample :
    createTransaction false stC4 reqC4 =
      (.error (.other "failed to commit transaction"), stC4) ∧
    handleServiceError (.other "failed to commit transaction") =
      (500, "Internal server error", errCodeInternalError) := by
  decide

/-- Witness for the amended C4 at a concrete state and request. -/
theorem claim_C4_witness :
    (createTransaction false stC4 reqC4).2 = stC4 ∧
    handleServiceError (.other "failed to commit transaction") =
      (500, "Internal server error", errCodeInternalError) :=
  ⟨(claim_C4_amended_commit_failure_is_generic_internal stC4 reqC4).1,
   (claim_C4_amended_commit_failure_is_generic_internal stC4 reqC4).2.2⟩

/-- C2 counterexample: a bulk request of 3 transfers whose 2nd element
has a zero amount is rejected whole by batch-level validation: the result is
a validation error naming element 1, the state is unchanged, and no element
executes, so the response does not contain 2 successes and 1 failure. -/
theorem claim_C2_counterexample :
    processBulkTransfers (fun _ => true) stC2 bulkReqC2 =
      (.error { field := "transfers[" ++ String.mk [Char.ofNat 1] ++ "].amount",
                message := "amount must be positive" }, stC2) ∧
    balanceOf stC2 1 = 10000 ∧
    balanceOf stC2 2 = 0 := by
  decide

/-- C2 (amended): an element that fails at run time does not prevent the
remaining elements from executing: a batch of 3 transfers whose 2nd element
fails with insufficient funds yields 2 successes and 1 failure recorded at
index 1, and the other two transfers move the money; only batch-level
validation failures (such as a zero amount) reject the batch whole. -/
theorem claim_C2_amended_runtime_failure_partial_success :
    (processBulkTransfers (fun _ => true) stC2b bulkReqC2b).1 =
      .ok { transfers :=
              [⟨0, some 1, 2, 500, none, .completed, 1⟩,
               ⟨1, some 1, 2, 500, none, .completed, 2⟩]
            failed :=
              [⟨1, "Insufficient funds in source account", "INSUFFICIENT_FUNDS"⟩] } ∧
    balanceOf (processBulkTransfers (fun _ => true) stC2b bulkReqC2b).2 1 = 0 ∧
    balanceOf (processBulkTransfers (fun _ => true) stC2b bulkReqC2b).2 2 = 1000 := by
  decide

theorem processBulkLoop_counts (commits : Nat → Bool) :
    ∀ (ts : List CreateTransactionRequest) (st : DBState) (i : Nat)
      (acc : BulkTransferResponse),
      (processBulkLoop commits st i ts acc).1.transfers.length +
        (processBulkLoop commits st i ts acc).1.failed.length =
      acc.transfers.length + acc.failed.length + ts.length := by
  intro ts
  induction ts with
  | nil => intro st i acc; simp [processBulkLoop]
  | cons t rest ih =>
    intro st i acc
    rcases hc : createTransaction (commits i) st t with ⟨res, st1⟩
    cases res with
    | error e =>
      simp only [processBulkLoop, hc]
      rw [ih]
      simp only [List.length_append, List.length_cons, List.length_nil]
      omega
    | ok resp =>
      simp only [processBulkLoop, hc]
      rw [ih]
      simp only [List.length_append, List.length_cons, List.length_nil]
      omega

theorem processBulkLoop_failed_indices (commits : Nat → Bool) :
    ∀ (ts : List CreateTransactionRequest) (st : DBState) (i : Nat)
      (acc : BulkTransferResponse),
      ∃ tail,
        (processBulkLoop commits st i ts acc).1.failed = acc.failed ++ tail ∧
        (tail.map TransferError.index).Pairwise (· < ·) ∧
        ∀ n ∈ tail.map TransferError.index, i ≤ n ∧ n < i + ts.length := by
  intro ts
  induction ts with
  | nil =>
    intro st i acc
    exact ⟨[], by simp [processBulkLoop], by simp, by simp⟩
  | cons t rest ih =>
    intro st i acc
    rcases hc : createTransaction (commits i) st t with ⟨res, st1⟩
    cases res with
    | ok resp =>
      obtain ⟨tail, htail, hpw, hbound⟩ := ih st1 (i + 1)
        { acc with transfers := acc.transfers ++ [resp] }
      refine ⟨tail, ?_, hpw, ?_⟩
      · simpa only [processBulkLoop, hc] using htail
      · intro n hn
        obtain ⟨h1, h2⟩ := hbound n hn
        refine ⟨by omega, ?_⟩
        show n < i + (rest.length + 1)
        omega
    | error e =>
      obtain ⟨tail, htail, hpw, hbound⟩ := ih st1 (i + 1)
        { acc with failed := acc.failed ++
            [{ index := i, error := e.goMessage, code := e.bulkCode }] }
      refine ⟨{ index := i, error := e.goMessage, code := e.bulkCode } :: tail, ?_, ?_, ?_⟩
      · have : (processBulkLoop commits st1 (i + 1) rest
            { acc with failed := acc.failed ++
                [{ index := i, error := e.goMessage, code := e.bulkCode }] }).1.failed =
            (acc.failed ++ [{ index := i, error := e.goMessage, code := e.bulkCode }]) ++ tail :=
          htail
        simp only [processBulkLoop, hc]
        rw [this]
        simp
      · simp only [List.map_cons, List.pairwise_cons]
        constructor
        · intro n hn
          exact Nat.lt_of_lt_of_le (Nat.lt_succ_self i) (hbound n hn).1
        · exact hpw
      · intro n hn
        rcases List.mem_cons.mp hn with h | h
        · have hni : n = i := h
          refine ⟨by omega, ?_⟩
          show n < i + (rest.length + 1)
          omega
        · obtain ⟨h1, h2⟩ := hbound n h
          refine ⟨by omega, ?_⟩
          show n < i + (rest.length + 1)
          omega

/-- C9: for every bulk request that passes batch-level validation, each
input element produces exactly one outcome, so the number of successes plus
the number of failures equals the number of input elements, the failure
indices are pairwise distinct, and every failure index is in range. -/
theorem claim_C9_bulk_outcomes_partition
    (commits : Nat → Bool) (st st' : DBState) (req : BulkTransferRequest)
    (resp : BulkTransferResponse)
    (h : processBulkTransfers commits st req = (.ok resp, st')) :
    resp.transfers.length + resp.failed.length = req.transfers.length ∧
    (resp.failed.map TransferError.index).Pairwise (· ≠ ·) ∧
    ∀ e ∈ resp.failed, e.index < req.transfers.length := by
  unfold processBulkTransfers at h
  split at h
  · simp at h
  case _ =>
  dsimp only at h
  obtain ⟨h1, h2⟩ := Prod.mk.injEq .. |>.mp h
  have hresp : (processBulkLoop commits st 0 req.transfers ⟨[], []⟩).1 = resp := by
    simpa using h1
  obtain ⟨tail, htail, hpw, hbound⟩ :=
    processBulkLoop_failed_indices commits req.transfers st 0 ⟨[], []⟩
  have hcount := processBulkLoop_counts commits req.transfers st 0 ⟨[], []⟩
  rw [hresp] at htail hcount
  have hft : resp.failed = tail := by simpa using htail
  refine ⟨?_, ?_, ?_⟩
  · simpa using hcount
  · rw [hft]
    exact hpw.imp Nat.ne_of_lt
  · intro e he
    rw [hft] at he
    have hb := (hbound e.index (List.mem_map_of_mem _ he)).2
    simpa using hb

/-- Witness for C9 at the concrete 3-element bulk run with one runtime
failure. -/
theorem claim_C9_witness :
    respC9.transfers.length + respC9.failed.length = bulkReqC2b.transfers.length ∧
    (respC9.failed.map TransferError.index).Pairwise (· ≠ ·) ∧
    ∀ e ∈ respC9.failed, e.index < bulkReqC2b.transfers.length :=
  claim_C9_bulk_outcomes_partition (fun _ => true) stC2b stC9' bulkReqC2b respC9
    (by decide)

/-- C5 (code bug): even when the idempotency store holds a completed,
unexpired record that GetRequest can return for the supplied key, the
request path ignores the Idempotency-Key header, so each submission executes
the transfer again: two submissions credit the destination twice and create
two transfer rows, and the idempotency store is never consulted or
updated. -/
theorem claim_C5_idempotency_token_is_ignored :
    getRequest stC5.idempotencyKeys "idem-key-1" stC5.now = some recC5 ∧
    balanceOf (handlerCreateSingleTransaction (some "idem-key-1") true stC5 reqC5).2 7 =
      12500 ∧
    (handlerCreateSingleTransaction (some "idem-key-1") true stC5 reqC5).2.transactions.length = 1 ∧
    balanceOf (handlerCreateSingleTransaction (some "idem-key-1") true
      (handlerCreateSingleTransaction (some "idem-key-1") true stC5 reqC5).2 reqC5).2 7 =
      15000 ∧
    (handlerCreateSingleTransaction (some "idem-key-1") true
      (handlerCreateSingleTransaction (some "idem-key-1") true stC5 reqC5).2
        reqC5).2.transactions.length = 2 ∧
    (handlerCreateSingleTransaction (some "idem-key-1") true
      (handlerCreateSingleTransaction (some "idem-key-1") true stC5 reqC5).2
        reqC5).2.idempotencyKeys = stC5.idempotencyKeys := by
  decide

/-- Witness for the amended C8 at the concrete 30-transfer account with
requested limit 150. -/
theorem claim_C8_witness :
    (100 < (150 : Int) → getAccountTransactions stC8 1 150 0 =
      getAccountTransactions stC8 1 20 0) ∧
    ((0 : Int) < 0 → getAccountTransactions stC8 1 150 0 =
      getAccountTransactions stC8 1 150 0) ∧
    (∀ rows, getAccountTransactions stC8 1 150 0 = .ok rows → rows.length ≤ 100) ∧
    parseQueryParams none none = .ok (20, 0) :=
  claim_C8_amended_limit_resets_to_default stC8 1 150 0 (by decide)
